import Mathlib

/-!
# ghinstallation: the GitHub App transport (`appsTransport.go`)

A shallow embedding of `AppsTransport`, its four constructors and its
`RoundTrip` method, with the library calls the file makes (`time`, `strconv`,
`net/http` headers, `golang-jwt/jwt/v4`) modelled next to it.

Conventions of the embedding:

* a Go call that either returns or panics is a `Run`;
* a Go `(value, error)` pair that the code fills on one side only is an `Except`;
* a Go interface value that may be `nil` (the signing method, the wrapped
  round tripper) is an `Option`;
* an instant is an integer count of nanoseconds since the Unix epoch;
* the effects of `RoundTrip` (the header writes through the request pointer
  and the calls to the wrapped round tripper) are passed explicitly.
-/

namespace ghinstallation

/-! ## Go runtime -/

/-- The result of running a Go call: it returns a value or it panics. -/
inductive Run (α : Type) where
  | panicked : Run α
  | returned (a : α) : Run α

/-! ## Package `time` -/

namespace time

/-! An instant (`time.Time`) is an integer: the nanoseconds elapsed since the
Unix epoch. A `time.Duration` is an integer count of nanoseconds. Go keeps the
seconds of an instant as an `int64` and saturates at the ends of that range,
some 2.9e11 years away from any wall clock reading; the embedding uses
unbounded integers. -/

def Nanosecond : Int := 1
def Microsecond : Int := 1000 * Nanosecond
def Millisecond : Int := 1000 * Microsecond
def Second : Int := 1000 * Millisecond
def Minute : Int := 60 * Second

/-- Seconds from the zero instant (January 1, year 1, 00:00:00 UTC) to the Unix epoch. -/
def unixToInternal : Int := 62135596800

/-- Go's `t.Add(d)`. -/
def Add (t : Int) (d : Int) : Int := t + d

/-- Go's `t.Truncate(d)`: `t` rounded down to a multiple of `d` since the zero time;
`t` itself when `d <= 0`. -/
def Truncate (t : Int) (d : Int) : Int :=
  if d ≤ 0 then t else t - (t + unixToInternal * Second) % d

/-- Go's `t.Unix()`: whole seconds elapsed since the Unix epoch (rounded down). -/
def Unix (t : Int) : Int := t / Second

end time

/-! ## Package `strconv` -/

namespace strconv

/-- The digit table of `strconv`: `"0123456789abcdefghijklmnopqrstuvwxyz"`. -/
def digit (d : Nat) : Char :=
  if d < 10 then Char.ofNat (48 + d) else Char.ofNat (87 + d)

/-- The digit loop of `formatBits`: writes the digits of `u` in front of `acc`,
least significant first, until the remaining value is below the base. -/
def formatLoop (base : Nat) : Nat → Nat → List Char → List Char
  | 0, _, acc => acc
  | fuel + 1, u, acc =>
    if u < base then digit u :: acc
    else formatLoop base fuel (u / base) (digit (u % base) :: acc)

/-- The digits of the magnitude `u`; `u + 1` rounds of the loop always suffice
for a base of at least two. -/
def formatBits (u : Nat) (base : Nat) : List Char :=
  formatLoop base (u + 1) u []

/-- Go's `strconv.FormatInt(i, base)` for `2 <= base <= 36`: a minus sign for a
negative `i`, then the digits of its magnitude. -/
def FormatInt (i : Int) (base : Nat) : String :=
  if i < 0 then String.mk ('-' :: formatBits i.natAbs base)
  else String.mk (formatBits i.natAbs base)

/-- The value of a decimal digit character, if it is one. -/
def digitVal (c : Char) : Option Nat :=
  if 48 ≤ c.toNat ∧ c.toNat ≤ 57 then some (c.toNat - 48) else none

/-- Reads a run of decimal digits onto the accumulator `acc`. -/
def parseDigits : List Char → Nat → Option Nat
  | [], acc => some acc
  | c :: cs, acc =>
    match digitVal c with
    | none => none
    | some d => parseDigits cs (acc * 10 + d)

/-- Reads an unsigned decimal number: at least one digit, digits only. -/
def parseUnsigned (cs : List Char) : Option Nat :=
  match cs with
  | [] => none
  | _ :: _ => parseDigits cs 0

/-- Reading a string as a decimal integer, the way the claim on the issuer
reads it back: an optional sign, then one or more decimal digits (the syntax
`strconv.ParseInt(s, 10, _)` accepts, without a bound on the size). -/
def parseDecimal (s : String) : Option Int :=
  match s.data with
  | [] => none
  | c :: cs =>
    if c = '+' then (parseUnsigned cs).map (fun n => (n : Int))
    else if c = '-' then (parseUnsigned cs).map (fun n => - (n : Int))
    else (parseUnsigned (c :: cs)).map (fun n => (n : Int))

end strconv

/-! ## Package `net/http`: headers and requests -/

namespace http

/-- A `http.Header`, a `map[string][]string`: `none` is a key that is absent. -/
abbrev Header := String → Option (List String)

/-- Go's `h.Values(key)` for a key in canonical form: the values stored under it. -/
def Header.Values (h : Header) (key : String) : List String :=
  (h key).getD []

/-- Go's `h.Set(key, value)` for a key in canonical form: `h[key] = []string{value}`. -/
def Header.Set (h : Header) (key value : String) : Header :=
  fun k => if k = key then some [value] else h k

/-- Go's `h.Add(key, value)` for a key in canonical form:
`h[key] = append(h[key], value)`. -/
def Header.Add (h : Header) (key value : String) : Header :=
  fun k => if k = key then some (h.Values key ++ [value]) else h k

/-- The part of a `*http.Request` the transport reads or writes; `Header` is
initialised, as the `http.RoundTripper` contract requires of its argument. -/
structure Request where
  Method : String
  URL : String
  Header : Header

/-- A `http.RoundTripper`: one call takes the state of the world behind it
(connections, the remote server) and a request, and gives back the
`(*http.Response, error)` pair together with the new state of the world. -/
structure RoundTripper (σ Resp E : Type) where
  RoundTrip : σ → Request → (Option Resp × Option E) × σ

/-- The `*http.Client` the constructors build, `&http.Client{Transport: tr}`. -/
structure Client (σ Resp E : Type) where
  Transport : Option (RoundTripper σ Resp E)

end http

/-! ## Package `github.com/golang-jwt/jwt/v4` -/

namespace jwt

/-- The fields of `jwt.StandardClaims` that the transport fills. -/
structure StandardClaims where
  ExpiresAt : Int
  IssuedAt : Int
  Issuer : String

/-- The claim sets the transport puts in a token: the empty `jwt.MapClaims{}`
of `jwt.New`, or a `*jwt.StandardClaims`. -/
inductive Claims where
  | MapClaims : Claims
  | Standard (c : StandardClaims) : Claims

/-- A `*jwt.Token`; its header is determined by `Method`. -/
structure Token (Method : Type) where
  Method : Method
  Claims : Claims

/-- Go's `jwt.NewWithClaims(method, claims)`: asks the method for its `Alg()` to fill
the header, which panics on a nil interface. -/
def NewWithClaims {Method : Type} (method : Option Method) (claims : Claims) :
    Run (Token Method) :=
  match method with
  | none => Run.panicked
  | some m => Run.returned { Method := m, Claims := claims }

/-- Go's `jwt.New(method)`: a token with empty claims. -/
def New {Method : Type} (method : Option Method) : Run (Token Method) :=
  NewWithClaims method Claims.MapClaims

end jwt

/-! ## What the package takes from outside

Errors, the file system, the PEM parser, the encoding and signing steps of the
jwt library, and the two package constants declared in another file. -/

/-- The collaborators of `appsTransport.go`. `E` is the type of Go `error`
values, `Key` the values that may be stored in the `key interface{}` field,
`Method` the non-nil `jwt.SigningMethod` values, `RSAKey` the
`*rsa.PrivateKey` values. -/
structure Env (E Key Method RSAKey : Type) where
  /-- The error `fmt.Errorf` returns, given the formatted text (no `%w` is used). -/
  newError : String → E
  /-- The text `err.Error()`, which is what `%s` prints for an error. -/
  errorText : E → String
  /-- Go's `ioutil.ReadFile`. -/
  ReadFile : String → Except E (List (Fin 256))
  /-- Go's `jwt.ParseRSAPrivateKeyFromPEM`. -/
  ParseRSAPrivateKeyFromPEM : List (Fin 256) → Except E RSAKey
  /-- Storing a `*rsa.PrivateKey` in an `interface{}`. -/
  rsaKey : RSAKey → Key
  /-- Go's `jwt.SigningMethodRS256`. -/
  SigningMethodRS256 : Method
  /-- Go's `(*jwt.Token).SigningString`: the encoded header and claims. -/
  SigningString : jwt.Token Method → Except E String
  /-- Go's `jwt.SigningMethod.Sign(signingString, key)`. -/
  Sign : Method → String → Key → Except E String
  /-- The package constant `apiBaseURL`. -/
  apiBaseURL : String
  /-- The package constant `acceptHeader`. -/
  acceptHeader : String

section Transport

variable {σ Resp E Key Method RSAKey : Type}

/-- Go's `(*jwt.Token).SignedString(key)`: the signing string, then the signature
the method computes over it, joined by a dot; the first error otherwise. -/
def jwt.Token.SignedString (env : Env E Key Method RSAKey) (t : jwt.Token Method)
    (key : Key) : Except E String :=
  match env.SigningString t with
  | Except.error err => Except.error err
  | Except.ok sstr =>
    match env.Sign t.Method sstr key with
    | Except.error err => Except.error err
    | Except.ok sig => Except.ok (sstr ++ "." ++ sig)

/-- The struct `AppsTransport`. -/
structure AppsTransport (σ Resp E Key Method : Type) where
  BaseURL : String
  Client : http.Client σ Resp E
  tr : Option (http.RoundTripper σ Resp E)
  key : Key
  signingMethod : Option Method
  appID : Int

/-- The constructor `NewAppsTransportFromPrivateKey`. -/
def NewAppsTransportFromPrivateKey (env : Env E Key Method RSAKey)
    (tr : Option (http.RoundTripper σ Resp E)) (appID : Int) (key : RSAKey) :
    AppsTransport σ Resp E Key Method :=
  { BaseURL := env.apiBaseURL
    Client := { Transport := tr }
    tr := tr
    key := env.rsaKey key
    signingMethod := some env.SigningMethodRS256
    appID := appID }

/-- The constructor `NewAppsTransport`. -/
def NewAppsTransport (env : Env E Key Method RSAKey)
    (tr : Option (http.RoundTripper σ Resp E)) (appID : Int)
    (privateKey : List (Fin 256)) : Except E (AppsTransport σ Resp E Key Method) :=
  match env.ParseRSAPrivateKeyFromPEM privateKey with
  | Except.error err =>
    Except.error (env.newError ("could not parse private key: " ++ env.errorText err))
  | Except.ok key => Except.ok (NewAppsTransportFromPrivateKey env tr appID key)

/-- The constructor `NewAppsTransportKeyFromFile`. -/
def NewAppsTransportKeyFromFile (env : Env E Key Method RSAKey)
    (tr : Option (http.RoundTripper σ Resp E)) (appID : Int)
    (privateKeyFile : String) : Except E (AppsTransport σ Resp E Key Method) :=
  match env.ReadFile privateKeyFile with
  | Except.error err =>
    Except.error (env.newError ("could not read private key: " ++ env.errorText err))
  | Except.ok privateKey => NewAppsTransport env tr appID privateKey

/-- The constructor `NewAppsTransportCustomSigningMethod`. -/
def NewAppsTransportCustomSigningMethod (env : Env E Key Method RSAKey)
    (tr : Option (http.RoundTripper σ Resp E)) (appID : Int) (key : Key)
    (signingMethod : Option Method) :
    Run (Except E (AppsTransport σ Resp E Key Method)) :=
  match jwt.New signingMethod with
  | Run.panicked => Run.panicked
  | Run.returned token =>
    match token.SignedString env key with
    | Except.error err =>
      Run.returned (Except.error
        (env.newError ("could not sign jwt with given key: " ++ env.errorText err)))
    | Except.ok _ =>
      Run.returned (Except.ok
        { BaseURL := env.apiBaseURL
          Client := { Transport := tr }
          tr := tr
          key := key
          signingMethod := signingMethod
          appID := appID })

/-- The claim set `RoundTrip` builds when the clock reads `now`
(`appsTransport.go`, lines 89 to 95). -/
def AppsTransport.claims (t : AppsTransport σ Resp E Key Method) (now : Int) :
    jwt.StandardClaims :=
  let iss := time.Truncate (time.Add now (-30 * time.Second)) time.Second
  let exp := time.Add iss (2 * time.Minute)
  { IssuedAt := time.Unix iss
    ExpiresAt := time.Unix exp
    Issuer := strconv.FormatInt t.appID 10 }

/-- What a call of `RoundTrip` leaves behind: the request as the caller's
pointer shows it, the requests handed to the wrapped round tripper in order,
and the state of the world behind that round tripper. -/
structure Effects (σ : Type) where
  req : http.Request
  sent : List http.Request
  world : σ

/-- The method `(*AppsTransport).RoundTrip`, called when the clock reads `now` and the
world behind the wrapped round tripper is `w`. The call of `t.tr.RoundTrip`
panics when `t.tr` is nil. -/
def AppsTransport.RoundTrip (env : Env E Key Method RSAKey)
    (t : AppsTransport σ Resp E Key Method) (now : Int) (w : σ)
    (req : http.Request) : Run (Option Resp × Option E) × Effects σ :=
  let claims := t.claims now
  match t.signingMethod with
  | none =>
    (Run.returned
      (none, some (env.newError "the AppsTransport's signingMethod is unexpectedly nil")),
     { req := req, sent := [], world := w })
  | some signingMethod =>
    match jwt.NewWithClaims (some signingMethod) (jwt.Claims.Standard claims) with
    | Run.panicked => (Run.panicked, { req := req, sent := [], world := w })
    | Run.returned bearer =>
      match bearer.SignedString env t.key with
      | Except.error err =>
        (Run.returned
          (none, some (env.newError ("could not sign jwt: " ++ env.errorText err))),
         { req := req, sent := [], world := w })
      | Except.ok ss =>
        let req1 : http.Request :=
          { req with Header := req.Header.Set "Authorization" ("Bearer " ++ ss) }
        let req2 : http.Request :=
          { req1 with Header := req1.Header.Add "Accept" env.acceptHeader }
        match t.tr with
        | none => (Run.panicked, { req := req2, sent := [], world := w })
        | some tr =>
          let r := tr.RoundTrip w req2
          (Run.returned r.1, { req := req2, sent := [req2], world := r.2 })

/-- The trial signature of the custom constructor:
`jwt.New(signingMethod).SignedString(key)`. -/
def trialSignature (env : Env E Key Method RSAKey) (key : Key)
    (signingMethod : Option Method) : Run (Except E String) :=
  match jwt.New signingMethod with
  | Run.panicked => Run.panicked
  | Run.returned token => Run.returned (token.SignedString env key)

/-- The request after the two header writes of `RoundTrip` (lines 110 and
111) with the signed token `ss`: Authorization is set, then Accept is added to. -/
def decorated (env : Env E Key Method RSAKey) (req : http.Request) (ss : String) :
    http.Request :=
  { req with
    Header := (req.Header.Set "Authorization" ("Bearer " ++ ss)).Add "Accept" env.acceptHeader }

/-- The token `RoundTrip` signs at `now` with the method `m`: the claims of
the call under that method. -/
def AppsTransport.bearer (t : AppsTransport σ Resp E Key Method) (now : Int)
    (m : Method) : jwt.Token Method :=
  { Method := m, Claims := jwt.Claims.Standard (t.claims now) }

/-- A transport is constructor-built when one of the four constructors of the
package returned it. -/
def ConstructorBuilt (env : Env E Key Method RSAKey)
    (t : AppsTransport σ Resp E Key Method) : Prop :=
  (∃ tr appID privateKeyFile,
      NewAppsTransportKeyFromFile env tr appID privateKeyFile = Except.ok t) ∨
  (∃ tr appID privateKey, NewAppsTransport env tr appID privateKey = Except.ok t) ∨
  (∃ tr appID key, NewAppsTransportFromPrivateKey env tr appID key = t) ∨
  (∃ tr appID key signingMethod,
      NewAppsTransportCustomSigningMethod env tr appID key signingMethod =
        Run.returned (Except.ok t))

end Transport

/-! ## A small concrete world

One instance of the collaborators, used to run the embedding on concrete
inputs: two signing methods, RSA keys known by the size of their modulus,
shared secrets, and two wrapped round trippers that count the requests they
serve. -/

namespace sample

/-- An RSA private key, known by `Size()`, the length of its modulus in bytes. -/
structure RSAPrivateKey where
  Size : Nat

/-- The keys of the small world. -/
inductive Key where
  | rsa (k : RSAPrivateKey) : Key
  | secret (bytes : String) : Key

/-- The signing methods of the small world. -/
inductive Method where
  | RS256 : Method
  | HS256 : Method

/-- The name `Alg()` gives the method. -/
def Method.Alg : Method → String
  | Method.RS256 => "RS256"
  | Method.HS256 => "HS256"

/-- A readable stand-in for the encoded header and claims. -/
def SigningString (t : jwt.Token Method) : Except String String :=
  match t.Claims with
  | jwt.Claims.MapClaims => Except.ok (t.Method.Alg ++ ".")
  | jwt.Claims.Standard c =>
    Except.ok (t.Method.Alg ++ "." ++ "iat=" ++ strconv.FormatInt c.IssuedAt 10 ++
      ",exp=" ++ strconv.FormatInt c.ExpiresAt 10 ++ ",iss=" ++ c.Issuer)

/-- Signing in the small world. RS256 takes an RSA key and, as
`rsa.SignPKCS1v15` does with SHA-256, refuses a modulus shorter than
19 + 32 + 11 = 62 bytes; HS256 takes a shared secret; any other pairing is
`jwt.ErrInvalidKeyType`. The signature text is a stand-in. -/
def Sign : Method → String → Key → Except String String
  | Method.RS256, _, Key.rsa k =>
    if k.Size < 62 then Except.error "crypto/rsa: message too long for RSA key size"
    else Except.ok "c2ln"
  | Method.HS256, _, Key.secret _ => Except.ok "aG1hYw"
  | _, _, _ => Except.error "key is of invalid type"

/-- The collaborators of the small world. Errors are their texts; the only
file is `app.pem`; a non-empty byte string parses to a key whose modulus is
as long as the byte string. -/
def env : Env String Key Method RSAPrivateKey :=
  { newError := fun s => s
    errorText := fun e => e
    ReadFile := fun path =>
      if path = "app.pem" then Except.ok (List.replicate 256 0)
      else Except.error ("open " ++ path ++ ": no such file or directory")
    ParseRSAPrivateKeyFromPEM := fun b =>
      match b with
      | [] => Except.error "Invalid Key: Key must be a PEM encoded PKCS1 or PKCS8 key"
      | _ :: _ => Except.ok { Size := b.length }
    rsaKey := Key.rsa
    SigningMethodRS256 := Method.RS256
    SigningString := SigningString
    Sign := Sign
    apiBaseURL := "https://api.github.com"
    acceptHeader := "application/vnd.github.v3+json" }

/-- A wrapped round tripper that answers every request. -/
def okTransport : http.RoundTripper Nat String String :=
  { RoundTrip := fun served _ => ((some "200 OK", none), served + 1) }

/-- A request that already carries two Accept values, one of them the
package's own, and a stale Authorization value. -/
def request : http.Request :=
  { Method := "GET"
    URL := "https://api.github.com/app"
    Header := fun k =>
      if k = "Accept" then some ["application/vnd.github.v3+json", "text/plain"]
      else if k = "Authorization" then some ["Basic dXNlcg", "token old"]
      else none }

/-- An RSA key with a 2048-bit modulus. -/
def goodKey : RSAPrivateKey := { Size := 256 }

/-- An RSA key with a 256-bit modulus, too short for RS256. -/
def shortKey : RSAPrivateKey := { Size := 32 }

/-- A call time: 09:00:00.5 UTC on 14 July 2017, in nanoseconds. -/
def callTime : Int := 1500022800500000000

/-- The transport of application 12345 over the answering round tripper, built
from the 2048-bit key by `NewAppsTransportFromPrivateKey`. -/
def transport : AppsTransport Nat String String Key Method :=
  NewAppsTransportFromPrivateKey env (some okTransport) 12345 goodKey

/-- The transport `NewAppsTransportFromPrivateKey` builds from the short key. -/
def shortKeyTransport : AppsTransport Nat String String Key Method :=
  NewAppsTransportFromPrivateKey env (some okTransport) 12345 shortKey

/-- The transport `NewAppsTransportFromPrivateKey` builds from the 2048-bit key
when it is given a nil inner transport. -/
def nilInnerTransport : AppsTransport Nat String String Key Method :=
  NewAppsTransportFromPrivateKey env none 12345 goodKey

/-- A transport literal without a signing method, as no constructor builds it. -/
def bareTransport : AppsTransport Nat String String Key Method :=
  { BaseURL := "https://api.github.com"
    Client := { Transport := some okTransport }
    tr := some okTransport
    key := Key.rsa goodKey
    signingMethod := none
    appID := 12345 }

/-- The transport `NewAppsTransportCustomSigningMethod` builds for HS256 and a
shared secret. -/
def hmacTransport : AppsTransport Nat String String Key Method :=
  { BaseURL := "https://api.github.com"
    Client := { Transport := some okTransport }
    tr := some okTransport
    key := Key.secret "s3cret"
    signingMethod := some Method.HS256
    appID := 12345 }

/-- The token `RoundTrip` obtains for `transport` at `callTime`. -/
def signedToken : String := "RS256.iat=1500022770,exp=1500022890,iss=12345.c2ln"

end sample

/-! ## Lemmas on the library models -/

namespace strconv

theorem digitVal_digit (d : Nat) (h : d < 10) : digitVal (digit d) = some d := by
  interval_cases d <;> rfl

theorem digit_ne_sign (d : Nat) (h : d < 10) : digit d ≠ '+' ∧ digit d ≠ '-' := by
  interval_cases d <;> decide

/-- Reading back what the digit loop wrote in front of `acc` is reading `acc`
onto the value the loop was given. -/
theorem parseDigits_formatLoop (fuel : Nat) :
    ∀ (u : Nat) (acc : List Char), u < fuel →
      parseDigits (formatLoop 10 fuel u acc) 0 = parseDigits acc u := by
  induction fuel with
  | zero => intro u acc h; omega
  | succ fuel ih =>
    intro u acc h
    by_cases hu : u < 10
    · simp [formatLoop, hu, parseDigits, digitVal_digit u hu]
    · have hlt : u / 10 < fuel := by omega
      have hd : u % 10 < 10 := by omega
      have hval : u / 10 * 10 + u % 10 = u := by omega
      simp [formatLoop, hu, ih (u / 10) _ hlt, parseDigits, digitVal_digit _ hd, hval]

/-- The digit loop writes a digit first. -/
theorem formatLoop_head (fuel : Nat) :
    ∀ (u : Nat) (acc : List Char), u < fuel →
      ∃ d rest, d < 10 ∧ formatLoop 10 fuel u acc = digit d :: rest := by
  induction fuel with
  | zero => intro u acc h; omega
  | succ fuel ih =>
    intro u acc h
    by_cases hu : u < 10
    · exact ⟨u, acc, hu, by simp [formatLoop, hu]⟩
    · have hlt : u / 10 < fuel := by omega
      obtain ⟨d, rest, hd, hrest⟩ := ih (u / 10) (digit (u % 10) :: acc) hlt
      exact ⟨d, rest, hd, by simp [formatLoop, hu, hrest]⟩

theorem parseUnsigned_formatBits (u : Nat) : parseUnsigned (formatBits u 10) = some u := by
  obtain ⟨d, rest, _, hrest⟩ := formatLoop_head (u + 1) u [] (Nat.lt_succ_self u)
  have hparse := parseDigits_formatLoop (u + 1) u [] (Nat.lt_succ_self u)
  unfold formatBits
  rw [hrest] at hparse ⊢
  simpa [parseUnsigned, parseDigits] using hparse

/-- Formatting an integer in base ten and reading the text back gives the integer. -/
theorem parseDecimal_FormatInt (i : Int) : parseDecimal (FormatInt i 10) = some i := by
  by_cases hneg : i < 0
  · have habs : -((i.natAbs : Nat) : Int) = i := by omega
    simp [FormatInt, hneg, parseDecimal, parseUnsigned_formatBits, abs_of_neg hneg]
  · obtain ⟨d, rest, hd, hrest⟩ :=
      formatLoop_head (i.natAbs + 1) i.natAbs [] (Nat.lt_succ_self _)
    have hfmt : formatBits i.natAbs 10 = digit d :: rest := hrest
    have hparse := parseUnsigned_formatBits i.natAbs
    rw [hfmt] at hparse
    have habs : ((i.natAbs : Nat) : Int) = i := by omega
    simp [FormatInt, hneg, parseDecimal, hfmt, (digit_ne_sign d hd).1,
      (digit_ne_sign d hd).2, hparse, abs_of_nonneg (not_lt.mp hneg)]

end strconv

/-! ## The claims built by `RoundTrip` -/

section ClaimSet

variable {σ Resp E Key Method : Type}

/-- C2: at every call time and for every transport, the claim set `RoundTrip`
builds expires exactly 120 seconds (in whole Unix seconds) after it was issued,
so its expiry is later than its issue time. -/
theorem claims_validity_window (t : AppsTransport σ Resp E Key Method) (now : Int) :
    (t.claims now).ExpiresAt - (t.claims now).IssuedAt = 120 ∧
    (t.claims now).ExpiresAt > (t.claims now).IssuedAt := by
  simp only [AppsTransport.claims, time.Unix, time.Add, time.Truncate, time.Second,
    time.Minute, time.Millisecond, time.Microsecond, time.Nanosecond, time.unixToInternal]
  norm_num
  omega

/-- C3: at every call time `now`, the issue time `RoundTrip` puts in the claims
is `now - 30s` rounded down to a whole second: the truncated instant is a whole
number of seconds, which is the claim; counted in seconds it is the floor of
`now - 30s`; it lies strictly before `now`, and `now` is at least 30 and less
than 31 seconds after it. -/
theorem claims_issuedAt_backdated (t : AppsTransport σ Resp E Key Method) (now : Int) :
    time.Truncate (time.Add now (-30 * time.Second)) time.Second =
      (t.claims now).IssuedAt * time.Second ∧
    (t.claims now).IssuedAt * time.Second ≤ now - 30 * time.Second ∧
    now - 30 * time.Second < ((t.claims now).IssuedAt + 1) * time.Second ∧
    (t.claims now).IssuedAt * time.Second < now ∧
    30 * time.Second ≤ now - (t.claims now).IssuedAt * time.Second ∧
    now - (t.claims now).IssuedAt * time.Second < 31 * time.Second := by
  simp only [AppsTransport.claims, time.Unix, time.Add, time.Truncate, time.Second,
    time.Minute, time.Millisecond, time.Microsecond, time.Nanosecond, time.unixToInternal]
  norm_num
  omega

/-- C4: the issuer `RoundTrip` puts in the claims is the application id
formatted in base ten, reading it back as a decimal integer gives the
application id, and the id 12345 is written 12345. -/
theorem claims_issuer_decimal (t : AppsTransport σ Resp E Key Method) (now : Int) :
    (t.claims now).Issuer = strconv.FormatInt t.appID 10 ∧
    strconv.parseDecimal (t.claims now).Issuer = some t.appID ∧
    strconv.FormatInt 12345 10 = "12345" :=
  ⟨rfl, strconv.parseDecimal_FormatInt t.appID, by decide⟩

end ClaimSet

/-! ## The paths of `RoundTrip` -/

section Paths

variable {σ Resp E Key Method RSAKey : Type}

theorem SignedString_ne_empty (env : Env E Key Method RSAKey) (tok : jwt.Token Method)
    (key : Key) (ss : String) (h : tok.SignedString env key = Except.ok ss) : ss ≠ "" := by
  unfold jwt.Token.SignedString at h
  split at h
  · cases h
  · split at h
    · cases h
    · cases h
      intro hempty
      have hlen := congrArg String.length hempty
      simp only [String.length_append] at hlen
      have hdot : ".".length = 1 := rfl
      have hnil : "".length = 0 := rfl
      omega

theorem RoundTrip_nil_method (env : Env E Key Method RSAKey)
    (t : AppsTransport σ Resp E Key Method) (now : Int) (w : σ) (req : http.Request)
    (hm : t.signingMethod = none) :
    t.RoundTrip env now w req =
      (Run.returned
        (none, some (env.newError "the AppsTransport's signingMethod is unexpectedly nil")),
       { req := req, sent := [], world := w }) := by
  simp [AppsTransport.RoundTrip, hm]

theorem RoundTrip_sign_error (env : Env E Key Method RSAKey)
    (t : AppsTransport σ Resp E Key Method) (now : Int) (w : σ) (req : http.Request)
    (m : Method) (err : E) (hm : t.signingMethod = some m)
    (hs : (t.bearer now m).SignedString env t.key = Except.error err) :
    t.RoundTrip env now w req =
      (Run.returned (none, some (env.newError ("could not sign jwt: " ++ env.errorText err))),
       { req := req, sent := [], world := w }) := by
  simp only [AppsTransport.bearer] at hs
  simp [AppsTransport.RoundTrip, hm, jwt.NewWithClaims, hs]

theorem RoundTrip_signed (env : Env E Key Method RSAKey)
    (t : AppsTransport σ Resp E Key Method) (now : Int) (w : σ) (req : http.Request)
    (m : Method) (ss : String) (inner : http.RoundTripper σ Resp E)
    (hm : t.signingMethod = some m)
    (hs : (t.bearer now m).SignedString env t.key = Except.ok ss)
    (htr : t.tr = some inner) :
    t.RoundTrip env now w req =
      (Run.returned (inner.RoundTrip w (decorated env req ss)).1,
       { req := decorated env req ss, sent := [decorated env req ss],
         world := (inner.RoundTrip w (decorated env req ss)).2 }) := by
  simp only [AppsTransport.bearer] at hs
  simp [AppsTransport.RoundTrip, hm, jwt.NewWithClaims, hs, htr, decorated]

theorem RoundTrip_signed_nil_tr (env : Env E Key Method RSAKey)
    (t : AppsTransport σ Resp E Key Method) (now : Int) (w : σ) (req : http.Request)
    (m : Method) (ss : String)
    (hm : t.signingMethod = some m)
    (hs : (t.bearer now m).SignedString env t.key = Except.ok ss)
    (htr : t.tr = none) :
    t.RoundTrip env now w req =
      (Run.panicked, { req := decorated env req ss, sent := [], world := w }) := by
  simp only [AppsTransport.bearer] at hs
  simp [AppsTransport.RoundTrip, hm, jwt.NewWithClaims, hs, htr, decorated]

theorem decorated_Authorization (env : Env E Key Method RSAKey) (req : http.Request)
    (ss : String) :
    (decorated env req ss).Header "Authorization" = some ["Bearer " ++ ss] := by
  simp [decorated, http.Header.Add, http.Header.Set]

theorem decorated_Accept (env : Env E Key Method RSAKey) (req : http.Request)
    (ss : String) :
    (decorated env req ss).Header.Values "Accept" =
      req.Header.Values "Accept" ++ [env.acceptHeader] := by
  simp [decorated, http.Header.Add, http.Header.Set, http.Header.Values]

theorem signingMethod_of_built (env : Env E Key Method RSAKey)
    (t : AppsTransport σ Resp E Key Method) (h : ConstructorBuilt env t) :
    ∃ m, t.signingMethod = some m := by
  rcases h with ⟨tr, appID, file, h⟩ | ⟨tr, appID, pem, h⟩ | ⟨tr, appID, key, h⟩ |
    ⟨tr, appID, key, sm, h⟩
  · unfold NewAppsTransportKeyFromFile NewAppsTransport at h
    split at h
    · cases h
    · split at h
      · cases h
      · cases h
        exact ⟨env.SigningMethodRS256, rfl⟩
  · unfold NewAppsTransport at h
    split at h
    · cases h
    · cases h
      exact ⟨env.SigningMethodRS256, rfl⟩
  · subst h
    exact ⟨env.SigningMethodRS256, rfl⟩
  · cases sm with
    | none => simp [NewAppsTransportCustomSigningMethod, jwt.New, jwt.NewWithClaims] at h
    | some m =>
      simp only [NewAppsTransportCustomSigningMethod, jwt.New, jwt.NewWithClaims] at h
      split at h
      · cases h
      · cases h
        exact ⟨m, rfl⟩

end Paths

/-! ## Construction -/

section Construction

variable {σ Resp E Key Method RSAKey : Type}

/-- C1: for every key and signing method, `NewAppsTransportCustomSigningMethod`
returns a transport exactly when the trial signature of an empty token with
that key and method succeeds; when the trial signature fails with a cause it
returns the error `could not sign jwt with given key: ` followed by the text
of the cause; when it succeeds the transport returned stores the given inner
transport, key, signing method and application id. -/
theorem custom_constructor_trial_signature (env : Env E Key Method RSAKey)
    (tr : Option (http.RoundTripper σ Resp E)) (appID : Int) (key : Key)
    (signingMethod : Option Method) :
    ((∃ t, NewAppsTransportCustomSigningMethod env tr appID key signingMethod =
          Run.returned (Except.ok t)) ↔
      ∃ ss, trialSignature env key signingMethod = Run.returned (Except.ok ss)) ∧
    (∀ err, trialSignature env key signingMethod = Run.returned (Except.error err) →
      NewAppsTransportCustomSigningMethod env tr appID key signingMethod =
        Run.returned (Except.error
          (env.newError ("could not sign jwt with given key: " ++ env.errorText err)))) ∧
    (∀ ss, trialSignature env key signingMethod = Run.returned (Except.ok ss) →
      NewAppsTransportCustomSigningMethod env tr appID key signingMethod =
        Run.returned (Except.ok
          { BaseURL := env.apiBaseURL
            Client := { Transport := tr }
            tr := tr
            key := key
            signingMethod := signingMethod
            appID := appID })) := by
  cases signingMethod with
  | none =>
    simp [NewAppsTransportCustomSigningMethod, trialSignature, jwt.New, jwt.NewWithClaims]
  | some m =>
    simp only [NewAppsTransportCustomSigningMethod, trialSignature, jwt.New,
      jwt.NewWithClaims]
    cases hsig : jwt.Token.SignedString env
        ({ Method := m, Claims := jwt.Claims.MapClaims } : jwt.Token Method) key with
    | error e => simp
    | ok ss => simp

/-- C1 on the sample world: HS256 with a shared secret is accepted and the
transport stores what was given; RS256 with the same secret is refused with
the wrapped cause. -/
theorem custom_constructor_trial_signature_witness :
    (trialSignature sample.env (sample.Key.secret "s3cret") (some sample.Method.HS256) =
        Run.returned (Except.ok "HS256..aG1hYw") ∧
      NewAppsTransportCustomSigningMethod sample.env (some sample.okTransport) 12345
          (sample.Key.secret "s3cret") (some sample.Method.HS256) =
        Run.returned (Except.ok
          { BaseURL := sample.env.apiBaseURL
            Client := { Transport := some sample.okTransport }
            tr := some sample.okTransport
            key := sample.Key.secret "s3cret"
            signingMethod := some sample.Method.HS256
            appID := 12345 })) ∧
    (trialSignature sample.env (sample.Key.secret "s3cret") (some sample.Method.RS256) =
        Run.returned (Except.error "key is of invalid type") ∧
      NewAppsTransportCustomSigningMethod sample.env (some sample.okTransport) 12345
          (sample.Key.secret "s3cret") (some sample.Method.RS256) =
        Run.returned (Except.error
          (sample.env.newError ("could not sign jwt with given key: " ++
            sample.env.errorText "key is of invalid type")))) :=
  ⟨⟨rfl, (custom_constructor_trial_signature sample.env (some sample.okTransport) 12345
      (sample.Key.secret "s3cret") (some sample.Method.HS256)).2.2 "HS256..aG1hYw" rfl⟩,
   ⟨rfl, (custom_constructor_trial_signature sample.env (some sample.okTransport) 12345
      (sample.Key.secret "s3cret") (some sample.Method.RS256)).2.1
        "key is of invalid type" rfl⟩⟩

end Construction

/-! ## Request decoration -/

section Decoration

variable {σ Resp E Key Method RSAKey : Type}

/-- C5: when the signing method is present, signing the claims of the call
gives the token `ss` and an inner transport is there to be reached, `RoundTrip`
hands it one request, whose Authorization header holds the single value
`Bearer ` followed by `ss`, whatever the request carried there before; and
`ss`, the part after `Bearer `, is not empty. -/
theorem roundTrip_sets_bearer (env : Env E Key Method RSAKey)
    (t : AppsTransport σ Resp E Key Method) (now : Int) (w : σ) (req : http.Request)
    (m : Method) (ss : String) (inner : http.RoundTripper σ Resp E)
    (hm : t.signingMethod = some m)
    (hs : (t.bearer now m).SignedString env t.key = Except.ok ss)
    (htr : t.tr = some inner) :
    ∃ r, (t.RoundTrip env now w req).2.sent = [r] ∧
      r.Header "Authorization" = some ["Bearer " ++ ss] ∧
      r.Header.Values "Authorization" = ["Bearer " ++ ss] ∧
      ss ≠ "" := by
  refine ⟨decorated env req ss, ?_, decorated_Authorization env req ss, ?_,
    SignedString_ne_empty env _ _ ss hs⟩
  · rw [RoundTrip_signed env t now w req m ss inner hm hs htr]
  · simp [http.Header.Values, decorated_Authorization]

/-- C5 on the sample world: the stale Authorization values of the sample
request are replaced by the one bearer value. -/
theorem roundTrip_sets_bearer_witness :
    sample.transport.signingMethod = some sample.Method.RS256 ∧
    (sample.transport.bearer sample.callTime sample.Method.RS256).SignedString sample.env
        sample.transport.key = Except.ok sample.signedToken ∧
    sample.transport.tr = some sample.okTransport ∧
    sample.request.Header "Authorization" = some ["Basic dXNlcg", "token old"] ∧
    ∃ r, (sample.transport.RoundTrip sample.env sample.callTime 0 sample.request).2.sent = [r] ∧
      r.Header "Authorization" = some ["Bearer " ++ sample.signedToken] ∧
      r.Header.Values "Authorization" = ["Bearer " ++ sample.signedToken] ∧
      sample.signedToken ≠ "" :=
  ⟨rfl, rfl, rfl, rfl,
    roundTrip_sets_bearer sample.env sample.transport sample.callTime 0 sample.request
      sample.Method.RS256 sample.signedToken sample.okTransport rfl rfl rfl⟩

/-- C6: after a successful decoration (signing method present, signing
succeeded) the Accept values of the request are the values it had before, in
the same order, followed by `acceptHeader`; every value present before is
still present; and any request handed to the inner transport carries that
same list. -/
theorem roundTrip_appends_accept (env : Env E Key Method RSAKey)
    (t : AppsTransport σ Resp E Key Method) (now : Int) (w : σ) (req : http.Request)
    (m : Method) (ss : String)
    (hm : t.signingMethod = some m)
    (hs : (t.bearer now m).SignedString env t.key = Except.ok ss) :
    (t.RoundTrip env now w req).2.req.Header.Values "Accept" =
        req.Header.Values "Accept" ++ [env.acceptHeader] ∧
    (∀ v, v ∈ req.Header.Values "Accept" →
        v ∈ (t.RoundTrip env now w req).2.req.Header.Values "Accept") ∧
    (∀ r, r ∈ (t.RoundTrip env now w req).2.sent →
        r.Header.Values "Accept" = req.Header.Values "Accept" ++ [env.acceptHeader]) := by
  cases htr : t.tr with
  | none =>
    rw [RoundTrip_signed_nil_tr env t now w req m ss hm hs htr]
    refine ⟨decorated_Accept env req ss, fun v hv => ?_, by simp⟩
    exact (decorated_Accept env req ss).symm ▸ List.mem_append_left _ hv
  | some inner =>
    rw [RoundTrip_signed env t now w req m ss inner hm hs htr]
    refine ⟨decorated_Accept env req ss, fun v hv => ?_, by simp [decorated_Accept]⟩
    exact (decorated_Accept env req ss).symm ▸ List.mem_append_left _ hv

/-- C6 on the sample world: the sample request already lists the package's
accept value; it is listed once more at the end and nothing is dropped. -/
theorem roundTrip_appends_accept_witness :
    sample.transport.signingMethod = some sample.Method.RS256 ∧
    (sample.transport.bearer sample.callTime sample.Method.RS256).SignedString sample.env
        sample.transport.key = Except.ok sample.signedToken ∧
    sample.request.Header.Values "Accept" =
        ["application/vnd.github.v3+json", "text/plain"] ∧
    sample.env.acceptHeader = "application/vnd.github.v3+json" ∧
    ((sample.transport.RoundTrip sample.env sample.callTime 0 sample.request).2.req.Header.Values
          "Accept" = sample.request.Header.Values "Accept" ++ [sample.env.acceptHeader] ∧
      (∀ v, v ∈ sample.request.Header.Values "Accept" →
        v ∈ (sample.transport.RoundTrip sample.env sample.callTime 0
              sample.request).2.req.Header.Values "Accept") ∧
      (∀ r, r ∈ (sample.transport.RoundTrip sample.env sample.callTime 0 sample.request).2.sent →
        r.Header.Values "Accept" =
          sample.request.Header.Values "Accept" ++ [sample.env.acceptHeader])) :=
  ⟨rfl, rfl, rfl, rfl,
    roundTrip_appends_accept sample.env sample.transport sample.callTime 0 sample.request
      sample.Method.RS256 sample.signedToken rfl rfl⟩

/-- C8, as stated, fails: `NewAppsTransportFromPrivateKey` stores a nil inner
transport unchecked; on the transport it returns the signing method is present
and signing succeeds, yet `RoundTrip` hands no request to any inner transport
and returns no error: it panics at the delegation, with the Authorization and
Accept headers of the request already rewritten. -/
theorem roundTrip_nil_inner_partial_state :
    ConstructorBuilt sample.env sample.nilInnerTransport ∧
    sample.nilInnerTransport.signingMethod = some sample.Method.RS256 ∧
    (sample.nilInnerTransport.bearer sample.callTime sample.Method.RS256).SignedString
        sample.env sample.nilInnerTransport.key = Except.ok sample.signedToken ∧
    (sample.nilInnerTransport.RoundTrip sample.env sample.callTime 0 sample.request).1 =
      Run.panicked ∧
    (¬ ∃ r, (sample.nilInnerTransport.RoundTrip sample.env sample.callTime 0
        sample.request).2.sent = [r]) ∧
    sample.request.Header "Authorization" = some ["Basic dXNlcg", "token old"] ∧
    (sample.nilInnerTransport.RoundTrip sample.env sample.callTime 0
        sample.request).2.req.Header "Authorization" =
      some ["Bearer RS256.iat=1500022770,exp=1500022890,iss=12345.c2ln"] ∧
    sample.request.Header "Accept" = some ["application/vnd.github.v3+json", "text/plain"] ∧
    (sample.nilInnerTransport.RoundTrip sample.env sample.callTime 0
        sample.request).2.req.Header "Accept" =
      some ["application/vnd.github.v3+json", "text/plain", "application/vnd.github.v3+json"] := by
  refine ⟨Or.inr (Or.inr (Or.inl ⟨none, 12345, sample.goodKey, rfl⟩)), rfl, rfl, rfl, ?_,
    rfl, rfl, rfl, rfl⟩
  rintro ⟨r, h⟩
  have hsent : (sample.nilInnerTransport.RoundTrip sample.env sample.callTime 0
      sample.request).2.sent = [] := rfl
  rw [hsent] at h
  cases h

/-- C8, amended: with a nil signing method, or when signing the claims with
the stored key fails, `RoundTrip` returns a nil response and an error, hands
nothing to the inner transport and leaves the request and the world as they
were. When the method is present and the token `ss` is signed, a transport
that wraps an inner transport hands it one request, which carries the bearer
Authorization value and the Accept list with `acceptHeader` appended; a
transport whose inner transport is nil panics at the delegation, with the
request decorated, nothing sent and the world as it was. The four cases are
exhaustive. -/
theorem roundTrip_failure_paths (env : Env E Key Method RSAKey)
    (t : AppsTransport σ Resp E Key Method) (now : Int) (w : σ) (req : http.Request) :
    (t.signingMethod = none →
      ∃ e, t.RoundTrip env now w req =
        (Run.returned (none, some e), { req := req, sent := [], world := w })) ∧
    (∀ m err, t.signingMethod = some m →
      (t.bearer now m).SignedString env t.key = Except.error err →
      ∃ e, t.RoundTrip env now w req =
        (Run.returned (none, some e), { req := req, sent := [], world := w })) ∧
    (∀ m ss inner, t.signingMethod = some m →
      (t.bearer now m).SignedString env t.key = Except.ok ss →
      t.tr = some inner →
      ∃ r, (t.RoundTrip env now w req).2.sent = [r] ∧
        (t.RoundTrip env now w req).2.req = r ∧
        r.Header "Authorization" = some ["Bearer " ++ ss] ∧
        r.Header.Values "Accept" = req.Header.Values "Accept" ++ [env.acceptHeader] ∧
        env.acceptHeader ∈ r.Header.Values "Accept") ∧
    (∀ m ss, t.signingMethod = some m →
      (t.bearer now m).SignedString env t.key = Except.ok ss →
      t.tr = none →
      t.RoundTrip env now w req =
        (Run.panicked, { req := decorated env req ss, sent := [], world := w })) ∧
    (t.signingMethod = none ∨
      (∃ m err, t.signingMethod = some m ∧
        (t.bearer now m).SignedString env t.key = Except.error err) ∨
      (∃ m ss inner, t.signingMethod = some m ∧
        (t.bearer now m).SignedString env t.key = Except.ok ss ∧ t.tr = some inner) ∨
      (∃ m ss, t.signingMethod = some m ∧
        (t.bearer now m).SignedString env t.key = Except.ok ss ∧ t.tr = none)) := by
  refine ⟨fun hm => ⟨_, RoundTrip_nil_method env t now w req hm⟩,
    fun m err hm hs => ⟨_, RoundTrip_sign_error env t now w req m err hm hs⟩,
    fun m ss inner hm hs htr => ?_,
    fun m ss hm hs htr => RoundTrip_signed_nil_tr env t now w req m ss hm hs htr, ?_⟩
  · refine ⟨decorated env req ss, ?_, ?_, decorated_Authorization env req ss,
      decorated_Accept env req ss, ?_⟩
    · rw [RoundTrip_signed env t now w req m ss inner hm hs htr]
    · rw [RoundTrip_signed env t now w req m ss inner hm hs htr]
    · rw [decorated_Accept]
      exact List.mem_append_right _ (List.mem_singleton_self _)
  · cases hm : t.signingMethod with
    | none => exact Or.inl rfl
    | some m =>
      cases hs : (t.bearer now m).SignedString env t.key with
      | error err => exact Or.inr (Or.inl ⟨m, err, rfl, hs⟩)
      | ok ss =>
        cases htr : t.tr with
        | none => exact Or.inr (Or.inr (Or.inr ⟨m, ss, rfl, hs, rfl⟩))
        | some inner => exact Or.inr (Or.inr (Or.inl ⟨m, ss, inner, rfl, hs, rfl⟩))

/-- C8, amended, on the sample world: a transport without a method and a
transport whose key cannot sign both return an error with the request and the
world untouched; the working transport sends one fully decorated request; the
transport with a nil inner transport panics after decorating the request. -/
theorem roundTrip_failure_paths_witness :
    (sample.bareTransport.signingMethod = none ∧
      ∃ e, sample.bareTransport.RoundTrip sample.env sample.callTime 0 sample.request =
        (Run.returned (none, some e), { req := sample.request, sent := [], world := 0 })) ∧
    ((sample.shortKeyTransport.signingMethod = some sample.Method.RS256 ∧
      (sample.shortKeyTransport.bearer sample.callTime sample.Method.RS256).SignedString
          sample.env sample.shortKeyTransport.key =
        Except.error "crypto/rsa: message too long for RSA key size") ∧
      ∃ e, sample.shortKeyTransport.RoundTrip sample.env sample.callTime 0 sample.request =
        (Run.returned (none, some e), { req := sample.request, sent := [], world := 0 })) ∧
    ((sample.transport.signingMethod = some sample.Method.RS256 ∧
      (sample.transport.bearer sample.callTime sample.Method.RS256).SignedString sample.env
          sample.transport.key = Except.ok sample.signedToken ∧
      sample.transport.tr = some sample.okTransport) ∧
      ∃ r, (sample.transport.RoundTrip sample.env sample.callTime 0 sample.request).2.sent = [r] ∧
        (sample.transport.RoundTrip sample.env sample.callTime 0 sample.request).2.req = r ∧
        r.Header "Authorization" = some ["Bearer " ++ sample.signedToken] ∧
        r.Header.Values "Accept" =
          sample.request.Header.Values "Accept" ++ [sample.env.acceptHeader] ∧
        sample.env.acceptHeader ∈ r.Header.Values "Accept") ∧
    ((sample.nilInnerTransport.signingMethod = some sample.Method.RS256 ∧
      (sample.nilInnerTransport.bearer sample.callTime sample.Method.RS256).SignedString
          sample.env sample.nilInnerTransport.key = Except.ok sample.signedToken ∧
      sample.nilInnerTransport.tr = none) ∧
      sample.nilInnerTransport.RoundTrip sample.env sample.callTime 0 sample.request =
        (Run.panicked,
         { req := decorated sample.env sample.request sample.signedToken, sent := [],
           world := 0 })) :=
  ⟨⟨rfl, (roundTrip_failure_paths sample.env sample.bareTransport sample.callTime 0
      sample.request).1 rfl⟩,
   ⟨⟨rfl, rfl⟩, (roundTrip_failure_paths sample.env sample.shortKeyTransport
      sample.callTime 0 sample.request).2.1 sample.Method.RS256
        "crypto/rsa: message too long for RSA key size" rfl rfl⟩,
   ⟨⟨rfl, rfl, rfl⟩, (roundTrip_failure_paths sample.env sample.transport
      sample.callTime 0 sample.request).2.2.1 sample.Method.RS256 sample.signedToken
        sample.okTransport rfl rfl rfl⟩,
   ⟨⟨rfl, rfl, rfl⟩, (roundTrip_failure_paths sample.env sample.nilInnerTransport
      sample.callTime 0 sample.request).2.2.2.1 sample.Method.RS256 sample.signedToken
        rfl rfl rfl⟩⟩

end Decoration

/-! ## What construction guarantees -/

section Guarantees

set_option maxRecDepth 8192

variable {σ Resp E Key Method RSAKey : Type}

/-- C9, as stated, fails: `NewAppsTransportFromPrivateKey` returns a transport
for the 256-bit RSA key of the sample world although no trial signature with
the stored key and method succeeds (it fails with the size error of RS256),
and the failure surfaces in `RoundTrip` at request time. -/
theorem default_constructor_skips_trial_signature :
    (¬ ∃ ss, trialSignature sample.env sample.shortKeyTransport.key
        sample.shortKeyTransport.signingMethod = Run.returned (Except.ok ss)) ∧
    trialSignature sample.env sample.shortKeyTransport.key
        sample.shortKeyTransport.signingMethod =
      Run.returned (Except.error "crypto/rsa: message too long for RSA key size") ∧
    (sample.shortKeyTransport.RoundTrip sample.env sample.callTime 0 sample.request).1 =
      Run.returned
        (none, some "could not sign jwt: crypto/rsa: message too long for RSA key size") := by
  refine ⟨?_, rfl, rfl⟩
  rintro ⟨ss, h⟩
  have herr : trialSignature sample.env sample.shortKeyTransport.key
      sample.shortKeyTransport.signingMethod =
      Run.returned (Except.error "crypto/rsa: message too long for RSA key size") := rfl
  rw [herr] at h
  cases h

/-- C9, amended: a transport returned by `NewAppsTransportCustomSigningMethod`
stores the key and method it was given and a trial signature with them
succeeds; the three default constructors run no trial signature and return a
transport that stores RS256 with the RSA key they were given or parsed. -/
theorem construction_validation (env : Env E Key Method RSAKey) :
    (∀ (tr : Option (http.RoundTripper σ Resp E)) (appID : Int) (key : Key)
        (signingMethod : Option Method) (t : AppsTransport σ Resp E Key Method),
      NewAppsTransportCustomSigningMethod env tr appID key signingMethod =
          Run.returned (Except.ok t) →
      t.key = key ∧ t.signingMethod = signingMethod ∧
      ∃ ss, trialSignature env t.key t.signingMethod = Run.returned (Except.ok ss)) ∧
    (∀ (tr : Option (http.RoundTripper σ Resp E)) (appID : Int) (key : RSAKey),
      (NewAppsTransportFromPrivateKey env tr appID key).key = env.rsaKey key ∧
      (NewAppsTransportFromPrivateKey env tr appID key).signingMethod =
        some env.SigningMethodRS256) ∧
    (∀ (tr : Option (http.RoundTripper σ Resp E)) (appID : Int)
        (privateKey : List (Fin 256)) (t : AppsTransport σ Resp E Key Method),
      NewAppsTransport env tr appID privateKey = Except.ok t →
      ∃ key, env.ParseRSAPrivateKeyFromPEM privateKey = Except.ok key ∧
        t = NewAppsTransportFromPrivateKey env tr appID key) ∧
    (∀ (tr : Option (http.RoundTripper σ Resp E)) (appID : Int)
        (privateKeyFile : String) (t : AppsTransport σ Resp E Key Method),
      NewAppsTransportKeyFromFile env tr appID privateKeyFile = Except.ok t →
      ∃ privateKey key, env.ReadFile privateKeyFile = Except.ok privateKey ∧
        env.ParseRSAPrivateKeyFromPEM privateKey = Except.ok key ∧
        t = NewAppsTransportFromPrivateKey env tr appID key) := by
  refine ⟨?_, fun _ _ _ => ⟨rfl, rfl⟩, ?_, ?_⟩
  · intro tr appID key sm t h
    cases sm with
    | none => simp [NewAppsTransportCustomSigningMethod, jwt.New, jwt.NewWithClaims] at h
    | some m =>
      simp only [NewAppsTransportCustomSigningMethod, jwt.New, jwt.NewWithClaims] at h
      split at h
      · cases h
      · rename_i ss hsig
        cases h
        exact ⟨rfl, rfl, ss, by simp [trialSignature, jwt.New, jwt.NewWithClaims, hsig]⟩
  · intro tr appID pem t h
    unfold NewAppsTransport at h
    split at h
    · cases h
    · rename_i key hkey
      cases h
      exact ⟨key, hkey, rfl⟩
  · intro tr appID file t h
    unfold NewAppsTransportKeyFromFile NewAppsTransport at h
    split at h
    · cases h
    · rename_i pem hpem
      split at h
      · cases h
      · rename_i key hkey
        cases h
        exact ⟨pem, key, hpem, hkey, rfl⟩

/-- C9, amended, on the sample world: the custom constructor accepts HS256
with a shared secret, and a trial signature with what it stored succeeds; the
constructor from a file returns the transport of the parsed key under RS256. -/
theorem construction_validation_witness :
    (NewAppsTransportCustomSigningMethod sample.env (some sample.okTransport) 12345
          (sample.Key.secret "s3cret") (some sample.Method.HS256) =
        Run.returned (Except.ok sample.hmacTransport) ∧
      (sample.hmacTransport.key = sample.Key.secret "s3cret" ∧
        sample.hmacTransport.signingMethod = some sample.Method.HS256 ∧
        ∃ ss, trialSignature sample.env sample.hmacTransport.key
          sample.hmacTransport.signingMethod = Run.returned (Except.ok ss))) ∧
    (NewAppsTransportKeyFromFile sample.env (some sample.okTransport) 12345 "app.pem" =
        Except.ok sample.transport ∧
      ∃ privateKey key, sample.env.ReadFile "app.pem" = Except.ok privateKey ∧
        sample.env.ParseRSAPrivateKeyFromPEM privateKey = Except.ok key ∧
        sample.transport =
          NewAppsTransportFromPrivateKey sample.env (some sample.okTransport) 12345 key) :=
  ⟨⟨rfl, (construction_validation sample.env).1 (some sample.okTransport) 12345
      (sample.Key.secret "s3cret") (some sample.Method.HS256) sample.hmacTransport rfl⟩,
   ⟨rfl, (construction_validation sample.env).2.2.2 (some sample.okTransport) 12345
      "app.pem" sample.transport rfl⟩⟩

/-- C10: a transport returned by any of the four constructors has a signing
method, so `RoundTrip` on it never takes the nil-method branch: every call ends
in the signing error, in the panic of a nil inner transport after decoration,
or in the answer of the inner transport. The constructor from a key stores
RS256, and the custom constructor panics on a nil signing method instead of
returning a transport. -/
theorem constructor_built_signing_method (env : Env E Key Method RSAKey) :
    (∀ (t : AppsTransport σ Resp E Key Method), ConstructorBuilt env t →
      ∃ m, t.signingMethod = some m ∧
        ∀ (now : Int) (w : σ) (req : http.Request),
          (∃ err, (t.bearer now m).SignedString env t.key = Except.error err ∧
            t.RoundTrip env now w req =
              (Run.returned
                (none, some (env.newError ("could not sign jwt: " ++ env.errorText err))),
               { req := req, sent := [], world := w })) ∨
          (∃ ss, (t.bearer now m).SignedString env t.key = Except.ok ss ∧ t.tr = none ∧
            t.RoundTrip env now w req =
              (Run.panicked, { req := decorated env req ss, sent := [], world := w })) ∨
          (∃ ss inner, (t.bearer now m).SignedString env t.key = Except.ok ss ∧
            t.tr = some inner ∧
            t.RoundTrip env now w req =
              (Run.returned (inner.RoundTrip w (decorated env req ss)).1,
               { req := decorated env req ss, sent := [decorated env req ss],
                 world := (inner.RoundTrip w (decorated env req ss)).2 }))) ∧
    (∀ (tr : Option (http.RoundTripper σ Resp E)) (appID : Int) (key : RSAKey),
      (NewAppsTransportFromPrivateKey env tr appID key).signingMethod =
        some env.SigningMethodRS256) ∧
    (∀ (tr : Option (http.RoundTripper σ Resp E)) (appID : Int) (key : Key),
      NewAppsTransportCustomSigningMethod env tr appID key none = Run.panicked) := by
  refine ⟨?_, fun _ _ _ => rfl, fun _ _ _ => rfl⟩
  intro t hbuilt
  obtain ⟨m, hm⟩ := signingMethod_of_built env t hbuilt
  refine ⟨m, hm, fun now w req => ?_⟩
  cases hs : (t.bearer now m).SignedString env t.key with
  | error err => exact Or.inl ⟨err, rfl, RoundTrip_sign_error env t now w req m err hm hs⟩
  | ok ss =>
    cases htr : t.tr with
    | none =>
      exact Or.inr (Or.inl ⟨ss, rfl, rfl, RoundTrip_signed_nil_tr env t now w req m ss hm hs htr⟩)
    | some inner =>
      exact Or.inr (Or.inr
        ⟨ss, inner, rfl, rfl, RoundTrip_signed env t now w req m ss inner hm hs htr⟩)

/-- C10 on the sample world: the transport the constructor from a file returns
is constructor-built and has a signing method. -/
theorem constructor_built_signing_method_witness :
    ConstructorBuilt sample.env sample.transport ∧
    ∃ m, sample.transport.signingMethod = some m ∧
      ∀ (now : Int) (w : Nat) (req : http.Request),
        (∃ err, (sample.transport.bearer now m).SignedString sample.env
              sample.transport.key = Except.error err ∧
          sample.transport.RoundTrip sample.env now w req =
            (Run.returned
              (none, some (sample.env.newError
                ("could not sign jwt: " ++ sample.env.errorText err))),
             { req := req, sent := [], world := w })) ∨
        (∃ ss, (sample.transport.bearer now m).SignedString sample.env
              sample.transport.key = Except.ok ss ∧ sample.transport.tr = none ∧
          sample.transport.RoundTrip sample.env now w req =
            (Run.panicked, { req := decorated sample.env req ss, sent := [], world := w })) ∨
        (∃ ss inner, (sample.transport.bearer now m).SignedString sample.env
              sample.transport.key = Except.ok ss ∧
          sample.transport.tr = some inner ∧
          sample.transport.RoundTrip sample.env now w req =
            (Run.returned (inner.RoundTrip w (decorated sample.env req ss)).1,
             { req := decorated sample.env req ss, sent := [decorated sample.env req ss],
               world := (inner.RoundTrip w (decorated sample.env req ss)).2 })) :=
  ⟨Or.inl ⟨some sample.okTransport, 12345, "app.pem", rfl⟩,
   (constructor_built_signing_method sample.env).1 sample.transport
     (Or.inl ⟨some sample.okTransport, 12345, "app.pem", rfl⟩)⟩

end Guarantees

end ghinstallation
